import Mathlib

/-!
Verification of the CloudStorm `DiscordConnector` (src/connector/DiscordConnector.ts).

The connector is embedded shallowly: its mutable fields become a `Conn` record,
each method becomes a function `Conn → Conn × List Effect`, where the `Effect`
list records, in program order, the observable actions the method performs
(transport sends, transport connect/close requests, upward event emissions,
timer starts and cancellations).  Time (`Date.now()`) is passed explicitly.
-/

namespace CloudStorm

/-- Connection status, mirroring the `status` union type of the connector. -/
inductive Status where
  | connecting
  | identifying
  | resuming
  | ready
  | disconnected
deriving DecidableEq, Repr

/-- Modelled from the spec: the numeric gateway opcode values come from
`src/Constants.ts` (`GATEWAY_OP_CODES`), which is not part of the provided
sources; the spec's wire-envelope section lists them explicitly
(0 dispatch, 1 heartbeat, 2 identify, 3 presence-update, 4 voice-state-update,
6 resume, 7 reconnect, 8 request-guild-members, 9 invalid-session, 10 hello,
11 heartbeat-ack). -/
def OP_DISPATCH : Nat := 0

def OP_HEARTBEAT : Nat := 1

def OP_IDENTIFY : Nat := 2

def OP_PRESENCE_UPDATE : Nat := 3

def OP_VOICE_STATE_UPDATE : Nat := 4

def OP_RESUME : Nat := 6

def OP_RECONNECT : Nat := 7

def OP_REQUEST_GUILD_MEMBERS : Nat := 8

def OP_INVALID_SESSION : Nat := 9

def OP_HELLO : Nat := 10

def OP_HEARTBEAT_ACK : Nat := 11

/-- The parts of an inbound message `d` payload that the connector reads:
`dFlag` is the JS truthiness of `d` itself (used by the INVALID_SESSION
handler), `heartbeat_interval` and `trace` are read by the HELLO handler,
`session_id` and `trace` are read by the dispatch handler. -/
structure MsgD where
  dFlag : Bool := false
  heartbeat_interval : Nat := 0
  trace : Option String := none
  session_id : String := ""
deriving DecidableEq, Repr

/-- Inbound gateway envelope `{op, d, s, t}`.  `s = 0` models a missing or
zero sequence number (both are falsy in JS, which is the only way the code
inspects `s`'s presence). -/
structure GatewayMessage where
  op : Nat
  d : MsgD := {}
  s : Nat := 0
  t : Option String := none
deriving DecidableEq, Repr

/-- A presence activity as read by `_checkPresenceData`: `name` with `""`
for a missing/falsy name, `type` with `none` for `undefined`, `url` with
`""` for a missing/falsy url. -/
structure Activity where
  name : String
  type : Option Nat
  url : String
deriving DecidableEq, Repr

/-- Input to `_checkPresenceData`, with `none` modelling absent fields. -/
structure PresenceData where
  status : Option String := none
  activities : Option (List Activity) := none
  afk : Option Bool := none
  since : Option Int := none
deriving DecidableEq, Repr

/-- Output of `_checkPresenceData`: every field filled in. -/
structure FilledPresence where
  status : String
  activities : List Activity
  afk : Bool
  since : Int
deriving DecidableEq, Repr

/-- Outbound messages handed to `betterWs.sendMessage`, keeping the fields
the claims inspect. -/
inductive OutMessage where
  | heartbeatMsg (seq : Nat)
  | resumeMsg (seq : Nat) (session_id : Option String)
  | identifyMsg
  | presenceMsg (d : FilledPresence)
deriving DecidableEq, Repr

/-- Observable actions of the connector, recorded in program order. -/
inductive Effect where
  | send (m : OutMessage)
  | wsClose (code : Nat)
  | wsConnect
  | error
  | debug
  | queueIdentify (id : Nat)
  | stateChange (s : Status)
  | readyEvt (resumed : Bool)
  | event
  | disconnectEvt (code : Nat) (graceful : Bool)
  | clearTimer
  | startTimer (interval : Nat)
deriving DecidableEq, Repr

/-- The connector's mutable state.  `reconnectOpt` is `options.reconnect`,
`hbTimer` records whether `heartbeatTimeout` is non-null, `reconnecting` is
the module-level `reconnecting` flag, `closing` is `_closing`, and `wsStatus`
mirrors `betterWs.status` (0 closed, 1 open, 2 connecting), which the
connector only reads. -/
structure Conn where
  reconnectOpt : Bool
  shardId : Nat := 0
  seq : Nat := 0
  sessionId : Option String := none
  trace : Option String := none
  status : Status := Status.disconnected
  lastACKAt : Int := 0
  lastHeartbeatSend : Int := 0
  latency : Int := 0
  heartbeatInterval : Nat := 0
  hbTimer : Bool := false
  closing : Bool := false
  reconnecting : Bool := false
  wsStatus : Nat := 1
deriving DecidableEq, Repr

/-- JS truthiness of `this.sessionId : string | null`. -/
def sessionTruthy : Option String → Bool
  | none => false
  | some s => s != ""

/-- `clearHeartBeat()`: cancel the interval if one is active, null the
handle, zero the cached interval. -/
def clearHeartBeat (c : Conn) : Conn × List Effect :=
  ({ c with hbTimer := false, heartbeatInterval := 0 },
   if c.hbTimer then [Effect.clearTimer] else [])

/-- `reset()`: hard reset — clear session id, sequence, last-ACK timestamp
and trace, then clear the heartbeat. -/
def reset (c : Conn) : Conn × List Effect :=
  clearHeartBeat { c with sessionId := none, seq := 0, lastACKAt := 0, trace := none }

/-- `connect()`: clear `_closing`, emit a debug line, ask the transport to
connect. -/
def connect (c : Conn) : Conn × List Effect :=
  ({ c with closing := false }, [Effect.debug, Effect.wsConnect])

/-- `disconnect()`: set `_closing`, ask the transport to close with code
1000. -/
def disconnect (c : Conn) : Conn × List Effect :=
  ({ c with closing := true }, [Effect.wsClose 1000])

/-- `heartbeat()`: send an OP 1 carrying the current `seq`, record the send
time. -/
def heartbeat (now : Int) (c : Conn) : Conn × List Effect :=
  ({ c with lastHeartbeatSend := now },
   (if c.wsStatus != 1 then [Effect.debug] else [])
     ++ [Effect.send (OutMessage.heartbeatMsg c.seq)])

/-- `resume()`: flip status to `resuming`, send an OP 6 carrying
`{seq, session_id}`. -/
def resume (c : Conn) : Conn × List Effect :=
  ({ c with status := Status.resuming },
   (if c.wsStatus != 1 then [Effect.debug] else [])
     ++ [Effect.debug, Effect.stateChange Status.resuming,
         Effect.send (OutMessage.resumeMsg c.seq c.sessionId)])

/-- `identify(force?)`: resume instead when a session id exists and `force`
is falsy; otherwise flip status to `identifying` and send an OP 2. -/
def identify (force : Bool) (c : Conn) : Conn × List Effect :=
  let dbg := if c.wsStatus != 1 then [Effect.debug] else []
  if sessionTruthy c.sessionId && !force then
    let r := resume c
    (r.1, dbg ++ r.2)
  else
    ({ c with status := Status.identifying },
     dbg ++ [Effect.debug, Effect.stateChange Status.identifying,
             Effect.send OutMessage.identifyMsg])

/-- `_reconnect(resume)`: set the module-level `reconnecting` flag when
resuming, close the transport with 4000 (resume) or 1012 (full), then
`clearHeartBeat()` (resume) or `reset()` (full), then `connect()`. -/
def reconnectWs (resumeFlag : Bool) (c : Conn) : Conn × List Effect :=
  let c1 := if resumeFlag then { c with reconnecting := true } else c
  let e1 := if c1.wsStatus = 2 then [Effect.error] else []
  let r2 := if resumeFlag then clearHeartBeat c1 else reset c1
  let r3 := connect r2.1
  (r3.1, e1 ++ [Effect.wsClose (if resumeFlag then 4000 else 1012)] ++ r2.2 ++ r3.2)

/-- `handleDispatch(message)`: on `READY` adopt the payload's `session_id`;
on `READY`/`RESUMED` flip to `ready`, adopt the trace, emit readiness
(flagging resumption) and forward the event; otherwise just forward. -/
def handleDispatch (msg : GatewayMessage) (c : Conn) : Conn × List Effect :=
  if msg.t = some "READY" ∨ msg.t = some "RESUMED" then
    let c1 := if msg.t = some "READY" then { c with sessionId := some msg.d.session_id } else c
    ({ c1 with status := Status.ready, trace := msg.d.trace },
     [Effect.stateChange Status.ready, Effect.readyEvt (msg.t == some "RESUMED"),
      Effect.event])
  else (c, [Effect.event])

/-- The heartbeat interval callback installed by the HELLO handler: on a
stale ACK (older than `interval + 5000` ms) reconnect-resume or disconnect
depending on `options.reconnect`; otherwise send a heartbeat. -/
def heartbeatTick (now : Int) (c : Conn) : Conn × List Effect :=
  if c.lastACKAt ≤ now - ((c.heartbeatInterval : Int) + 5000) then
    if c.reconnectOpt then
      let r := reconnectWs true c
      (r.1, Effect.debug :: r.2)
    else
      let r := disconnect c
      (r.1, Effect.debug :: r.2)
  else heartbeat now c

/-- The sequence-tracking block at the top of `messageAction`: an envelope
with a truthy `s` adopts it as `seq`, and on a gap (`s > seq + 1`) also logs
and calls `resume()` first. -/
def seqStep (msg : GatewayMessage) (c0 : Conn) : Conn × List Effect :=
  if msg.s ≠ 0 then
    if msg.s > c0.seq + 1 then
      let r := resume { c0 with seq := msg.s }
      ({ r.1 with seq := msg.s }, Effect.debug :: r.2)
    else ({ c0 with seq := msg.s }, ([] : List Effect))
  else (c0, ([] : List Effect))

/-- The opcode switch of `messageAction`. -/
def opStep (msg : GatewayMessage) (now : Int) (c1 : Conn) : Conn × List Effect :=
  if msg.op = OP_DISPATCH then handleDispatch msg c1
  else if msg.op = OP_HEARTBEAT then heartbeat now c1
  else if msg.op = OP_RECONNECT then
    if c1.reconnectOpt then
      let r := reconnectWs true c1
      (r.1, Effect.debug :: r.2)
    else
      let r := disconnect c1
      (r.1, Effect.debug :: r.2)
  else if msg.op = OP_INVALID_SESSION then
    if msg.d.dFlag && sessionTruthy c1.sessionId then resume c1
    else ({ c1 with seq := 0, sessionId := some "" },
          [Effect.queueIdentify c1.shardId])
  else if msg.op = OP_HELLO then
    let r := heartbeat now c1
    ({ r.1 with heartbeatInterval := msg.d.heartbeat_interval, hbTimer := true,
                trace := msg.d.trace },
     Effect.debug :: r.2 ++ [Effect.startTimer msg.d.heartbeat_interval,
                             Effect.queueIdentify c1.shardId])
  else if msg.op = OP_HEARTBEAT_ACK then
    ({ c1 with lastACKAt := now, latency := now - c1.lastHeartbeatSend }, [])
  else (c1, [Effect.event])

/-- `messageAction(message)`: the sequence-tracking block followed by the
opcode switch, exactly as in the source. -/
def messageAction (msg : GatewayMessage) (now : Int) (c0 : Conn) : Conn × List Effect :=
  let r1 := seqStep msg c0
  let r2 := opStep msg now r1.1
  (r2.1, r1.2 ++ r2.2)

/-- `handleWsClose(code, reason)`: flip to `disconnected`, run the close-code
policy in source order, clear `_closing`, cancel the heartbeat on a graceful
close, and report the disconnect upward with the graceful flag. -/
def handleWsClose (code : Nat) (c0 : Conn) : Conn × List Effect :=
  let c1 := { c0 with status := Status.disconnected }
  let eFatal :=
    (if code = 4014 then [Effect.error] else [])
      ++ (if code = 4013 then [Effect.error] else [])
      ++ (if code = 4012 then [Effect.error] else [])
      ++ (if code = 4011 then [Effect.error] else [])
      ++ (if code = 4010 then [Effect.error] else [])
  let r4009 :=
    if code = 4009 then
      let ra := clearHeartBeat c1
      let rb := connect ra.1
      (rb.1, Effect.error :: (ra.2 ++ rb.2))
    else (c1, ([] : List Effect))
  let r4008 :=
    if code = 4008 then
      let ra := clearHeartBeat r4009.1
      let rb := connect ra.1
      (rb.1, Effect.error :: (ra.2 ++ rb.2))
    else (r4009.1, ([] : List Effect))
  let r4007 :=
    if code = 4007 then
      let ra := reset r4008.1
      let rb := connect ra.1
      (rb.1, Effect.error :: (ra.2 ++ rb.2))
    else (r4008.1, ([] : List Effect))
  let r4005 :=
    if code = 4005 then
      let ra := clearHeartBeat r4007.1
      let rb := connect ra.1
      (rb.1, Effect.error :: (ra.2 ++ rb.2))
    else (r4007.1, ([] : List Effect))
  let e4004 := if code = 4004 then [Effect.error] else []
  let r4003 :=
    if code = 4003 then
      let ra := clearHeartBeat r4005.1
      let rb := connect ra.1
      (rb.1, Effect.error :: (ra.2 ++ rb.2))
    else (r4005.1, ([] : List Effect))
  let r4002 :=
    if code = 4002 then
      let ra := clearHeartBeat r4003.1
      let rb := connect ra.1
      (rb.1, Effect.error :: (ra.2 ++ rb.2))
    else (r4003.1, ([] : List Effect))
  let r4001 :=
    if code = 4001 then
      let ra := clearHeartBeat r4002.1
      let rb := connect ra.1
      (rb.1, Effect.error :: (ra.2 ++ rb.2))
    else (r4002.1, ([] : List Effect))
  let r4000 :=
    if code = 4000 then
      if r4001.1.reconnecting then (r4001.1, ([] : List Effect), true)
      else
        let ra := clearHeartBeat r4001.1
        let rb := connect ra.1
        (rb.1, Effect.error :: (ra.2 ++ rb.2), false)
    else (r4001.1, ([] : List Effect), false)
  let graceful := r4000.2.2 || (code == 1000 && r4000.1.closing)
  let c2 := { r4000.1 with closing := false }
  let rClear := if graceful then clearHeartBeat c2 else (c2, ([] : List Effect))
  (rClear.1,
   Effect.stateChange Status.disconnected
     :: (eFatal ++ r4009.2 ++ r4008.2 ++ r4007.2 ++ r4005.2 ++ e4004 ++ r4003.2
           ++ r4002.2 ++ r4001.2 ++ r4000.2.1 ++ rClear.2
           ++ [Effect.disconnectEvt code graceful]))

/-- The `ws_open` listener installed by the constructor. -/
def wsOpen (c : Conn) : Conn × List Effect :=
  ({ c with status := Status.connecting, reconnecting := false },
   [Effect.stateChange Status.connecting])

/-- One step of `_checkPresenceData`'s activity normalization: default a
missing `type` to 1 when a url is present, else 0 (JS
`activity.type = activity.url ? 1 : 0`). -/
def fixType (a : Activity) : Activity :=
  match a.type with
  | none => { a with type := some (if a.url != "" then 1 else 0) }
  | some _ => a

/-- The `for (const activity of data.activities)` loop of
`_checkPresenceData`, with the splice semantics of JS iteration: each
visited entry gets its type defaulted; an entry with a falsy name is spliced
out, which shifts the array left so the for-of iterator skips the element
that followed it (that element is retained unprocessed). -/
def spliceLoop : List Activity → List Activity
  | [] => []
  | [a] =>
    let a1 := fixType a
    if a1.name = "" then [] else [a1]
  | a :: b :: rest =>
    let a1 := fixType a
    if a1.name = "" then b :: spliceLoop rest
    else a1 :: spliceLoop (b :: rest)

/-- `_checkPresenceData(data)`: default status to "online", normalize the
activity list via the splice loop, default `afk` to false and `since` to the
current time (JS `||` treats `0` as missing). -/
def checkPresenceData (now : Int) (d : PresenceData) : FilledPresence :=
  { status :=
      match d.status with
      | none => "online"
      | some s => if s = "" then "online" else s,
    activities := spliceLoop (match d.activities with | none => [] | some l => l),
    afk := match d.afk with | none => false | some b => b,
    since := match d.since with | none => now | some n => if n = 0 then now else n }

/-- `presenceUpdate(data)`: send an OP 3 carrying the checked presence. -/
def presenceUpdate (now : Int) (d : PresenceData) (c : Conn) : Conn × List Effect :=
  (c, [Effect.send (OutMessage.presenceMsg (checkPresenceData now d))])

/-- How many times a list of effects actually cancels the heartbeat timer. -/
def countClear (effs : List Effect) : Nat :=
  effs.countP fun e => decide (e = Effect.clearTimer)

/-- Whether a list of effects contains an OP 6 RESUME send. -/
def sentResume (effs : List Effect) : Bool :=
  effs.any fun e =>
    match e with
    | Effect.send (OutMessage.resumeMsg _ _) => true
    | _ => false

/-- The invariant of claim C6: a `ready` status implies a non-empty session
identifier. -/
def Inv (c : Conn) : Prop :=
  c.status = Status.ready → sessionTruthy c.sessionId = true

/-- Side conditions under which an inbound message preserves `Inv`: a READY
dispatch must carry a non-empty `session_id`, a RESUMED dispatch must arrive
while a non-empty session identifier is stored, and an INVALID_SESSION
received in `ready` status must take the resume branch. -/
def handlerOk (msg : GatewayMessage) (c : Conn) : Prop :=
  (msg.op = OP_DISPATCH → msg.t = some "READY" → msg.d.session_id ≠ "")
    ∧ (msg.op = OP_DISPATCH → msg.t = some "RESUMED" → sessionTruthy c.sessionId = true)
    ∧ (msg.op = OP_INVALID_SESSION → c.status = Status.ready →
        (msg.d.dFlag && sessionTruthy c.sessionId) = true)

instance (c : Conn) : Decidable (Inv c) := by unfold Inv; infer_instance

instance (msg : GatewayMessage) (c : Conn) : Decidable (handlerOk msg c) := by
  unfold handlerOk; infer_instance

/-- The state after the sequence-tracking block: `seq` is adopted from a
truthy `s`, and a detected gap leaves the status at `resuming`. -/
theorem seqStep_fst (msg : GatewayMessage) (c : Conn) :
    (seqStep msg c).1 =
      { c with seq := if msg.s = 0 then c.seq else msg.s,
               status := if msg.s ≠ 0 ∧ c.seq + 1 < msg.s then Status.resuming else c.status } := by
  simp only [seqStep, resume]
  split_ifs <;> simp_all

/-- With `s = 0` the sequence-tracking block is a no-op. -/
theorem seqStep_s0 (msg : GatewayMessage) (c : Conn) (h : msg.s = 0) :
    seqStep msg c = (c, []) := by
  simp [seqStep, h]

/-- A detected sequence gap sends an OP 6 RESUME carrying the new sequence
and the stored session identifier. -/
theorem seqStep_gap_sends_resume (msg : GatewayMessage) (c : Conn) (h : c.seq + 1 < msg.s) :
    Effect.send (OutMessage.resumeMsg msg.s c.sessionId) ∈ (seqStep msg c).2 := by
  have hs : msg.s ≠ 0 := by omega
  simp [seqStep, resume, hs, h]

/-- How the opcode switch changes `seq`: only the INVALID_SESSION hard-reset
branch does, setting it to 0. -/
theorem opStep_seq (msg : GatewayMessage) (now : Int) (c1 : Conn) :
    (opStep msg now c1).1.seq =
      if msg.op = OP_INVALID_SESSION ∧ (msg.d.dFlag && sessionTruthy c1.sessionId) = false
      then 0 else c1.seq := by
  simp only [opStep, handleDispatch, heartbeat, resume, reconnectWs, clearHeartBeat,
    reset, connect, disconnect, OP_DISPATCH, OP_HEARTBEAT, OP_RECONNECT,
    OP_INVALID_SESSION, OP_HELLO, OP_HEARTBEAT_ACK]
  split_ifs <;> simp_all

/-- C5: on a transport close with code 4007 the connector emits an error
notification, performs a hard reset (session identifier cleared, sequence
set to 0, heartbeat timer cancelled) and reconnects. -/
theorem c5_close4007_resets_and_reconnects (c : Conn) :
    Effect.error ∈ (handleWsClose 4007 c).2 ∧
    (handleWsClose 4007 c).1.sessionId = none ∧
    (handleWsClose 4007 c).1.seq = 0 ∧
    (handleWsClose 4007 c).1.hbTimer = false ∧
    Effect.wsConnect ∈ (handleWsClose 4007 c).2 := by
  by_cases h : c.hbTimer <;>
    simp [handleWsClose, clearHeartBeat, reset, connect, h]

/-- C8: a transport close with code 1000 while the `closing` flag is set is
reported upward as graceful, with no reconnect attempt and no error
notification. -/
theorem c8_graceful_close_1000 (c : Conn) (h : c.closing = true) :
    Effect.wsConnect ∉ (handleWsClose 1000 c).2 ∧
    Effect.error ∉ (handleWsClose 1000 c).2 ∧
    Effect.disconnectEvt 1000 true ∈ (handleWsClose 1000 c).2 := by
  by_cases ht : c.hbTimer <;>
    simp [handleWsClose, clearHeartBeat, connect, h, ht]

/-- C8 witness: concrete instance of the graceful-close theorem. -/
theorem c8_graceful_close_1000_witness :
    ({ reconnectOpt := true, closing := true, hbTimer := true : Conn }.closing = true) ∧
    (Effect.wsConnect ∉
      (handleWsClose 1000 { reconnectOpt := true, closing := true, hbTimer := true : Conn }).2 ∧
     Effect.error ∉
      (handleWsClose 1000 { reconnectOpt := true, closing := true, hbTimer := true : Conn }).2 ∧
     Effect.disconnectEvt 1000 true ∈
      (handleWsClose 1000 { reconnectOpt := true, closing := true, hbTimer := true : Conn }).2) :=
  ⟨by decide,
   c8_graceful_close_1000 { reconnectOpt := true, closing := true, hbTimer := true } (by decide)⟩

/-- C10: `connect()` unconditionally clears the `closing` flag, so a close
with code 1000 processed after a `disconnect()` followed by a `connect()` is
classified and reported as non-graceful. -/
theorem c10_connect_clears_closing (c : Conn) :
    (connect c).1.closing = false ∧
    Effect.disconnectEvt 1000 false ∈
      (handleWsClose 1000 (connect (disconnect c).1).1).2 ∧
    Effect.disconnectEvt 1000 true ∉
      (handleWsClose 1000 (connect (disconnect c).1).1).2 := by
  simp [handleWsClose, connect, disconnect, clearHeartBeat]

/-- C7: the splice-during-iteration bug of `_checkPresenceData` — with two
consecutive activities both lacking a name, the second one survives
normalization (still lacking a name, its type never defaulted), although
the spec requires every name-less entry to be dropped. -/
theorem c7_nameless_activity_survives :
    (checkPresenceData 0
      { activities := some [{ name := "", type := none, url := "" },
                            { name := "", type := none, url := "" }] }).activities
      = [{ name := "", type := none, url := "" }] := by
  decide

/-- A concrete connector state with an active resumable session and a
running heartbeat timer, used by the C1 counterexample. -/
def tickState : Conn :=
  { reconnectOpt := true, sessionId := some "abc", seq := 5,
    hbTimer := true, heartbeatInterval := 40000, lastACKAt := 0 }

/-- C1 counterexample: at a timed-out heartbeat tick (no ACK within
`intervalMillis + 5000` ms) with auto-reconnect enabled, the connector does
initiate a reconnect (transport close 4000 followed by connect), but it
preserves `sessionIdentifier` and `sequence` instead of clearing them — the
reconnect is resume-style, not the reidentify the claim states. -/
theorem c1_timeout_preserves_session :
    tickState.lastACKAt ≤ 100000 - ((tickState.heartbeatInterval : Int) + 5000) ∧
    Effect.wsClose 4000 ∈ (heartbeatTick 100000 tickState).2 ∧
    Effect.wsConnect ∈ (heartbeatTick 100000 tickState).2 ∧
    (heartbeatTick 100000 tickState).1.sessionId = some "abc" ∧
    (heartbeatTick 100000 tickState).1.seq = 5 := by
  decide

/-- A concrete connector state with a non-empty session identifier, used by
the C2 counterexample. -/
def invalidSessionState : Conn :=
  { reconnectOpt := true, sessionId := some "abc", seq := 5, trace := some "t" }

/-- C2 counterexample: an INVALID_SESSION whose payload flag is false,
received while `sessionIdentifier` is non-empty, does not attempt a resume —
contrary to the claim — and instead zeroes the sequence and overwrites the
session identifier with the empty string. -/
theorem c2_nonempty_session_no_resume :
    sessionTruthy invalidSessionState.sessionId = true ∧
    sentResume (messageAction { op := OP_INVALID_SESSION } 0 invalidSessionState).2 = false ∧
    (messageAction { op := OP_INVALID_SESSION } 0 invalidSessionState).1.sessionId = some "" ∧
    (messageAction { op := OP_INVALID_SESSION } 0 invalidSessionState).1.seq = 0 := by
  decide

/-- A concrete connector state used by the C3 counterexample. -/
def reconnectOpState : Conn :=
  { reconnectOpt := true, sessionId := some "abc", seq := 7, hbTimer := true }

/-- C3 counterexample: on the reconnect-request opcode (op 7) with
auto-reconnect enabled, the connector closes the transport with code 4000
and reconnects, but keeps `sessionIdentifier` and `sequence` — there is no
hard reset, contrary to the claim. -/
theorem c3_op7_preserves_session :
    Effect.wsClose 4000 ∈ (messageAction { op := OP_RECONNECT } 0 reconnectOpState).2 ∧
    Effect.wsConnect ∈ (messageAction { op := OP_RECONNECT } 0 reconnectOpState).2 ∧
    (messageAction { op := OP_RECONNECT } 0 reconnectOpState).1.sessionId = some "abc" ∧
    (messageAction { op := OP_RECONNECT } 0 reconnectOpState).1.seq = 7 := by
  decide

/-- The freshly-constructed connector state: no session, sequence 0. -/
def freshState : Conn := { reconnectOpt := true }

/-- C4 counterexample: a sequence gap (envelope with `s = 2` while the
stored sequence is 0) detected while `sessionIdentifier` is empty still
sends an OP 6 RESUME to the transport, contrary to the claim. -/
theorem c4_gap_resumes_without_session :
    sessionTruthy freshState.sessionId = false ∧
    Effect.send (OutMessage.resumeMsg 2 none)
      ∈ (messageAction { op := OP_DISPATCH, s := 2 } 0 freshState).2 := by
  decide

/-- C6 counterexample: a RESUMED dispatch received by a fresh connector
(empty session identifier) flips the status to `ready` while
`sessionIdentifier` stays empty, so `Ready` does not imply a non-empty
session identifier and `handleDispatch` does not preserve the invariant. -/
theorem c6_resumed_without_session :
    (messageAction { op := OP_DISPATCH, t := some "RESUMED" } 0 freshState).1.status
      = Status.ready ∧
    sessionTruthy
      (messageAction { op := OP_DISPATCH, t := some "RESUMED" } 0 freshState).1.sessionId
      = false := by
  decide

/-- A concrete state with a stored sequence of 5, used by the C9
counterexample. -/
def seqState : Conn := { reconnectOpt := true, sessionId := some "", seq := 5 }

/-- C9 counterexample: an envelope with `s = 0` (the INVALID_SESSION
hard-reset branch) does change the stored sequence counter, setting it from
5 to 0 — contrary to the claim that only envelopes with a positive sequence
number change it. -/
theorem c9_zero_s_changes_seq :
    seqState.seq = 5 ∧
    (messageAction { op := OP_INVALID_SESSION, s := 0 } 0 seqState).1.seq = 0 := by
  decide

/-- C9 amended: complete characterization of how `messageAction` changes the
stored sequence — a positive `s` sets it to `s`, `s = 0` leaves it
unchanged, except that the INVALID_SESSION hard-reset branch sets it to 0
regardless of `s`. -/
theorem c9_amended_seq_update (c : Conn) (msg : GatewayMessage) (now : Int) :
    (messageAction msg now c).1.seq =
      if msg.op = OP_INVALID_SESSION ∧ (msg.d.dFlag && sessionTruthy c.sessionId) = false
      then 0
      else if msg.s = 0 then c.seq else msg.s := by
  have h2 := opStep_seq msg now (seqStep msg c).1
  have hsid : (seqStep msg c).1.sessionId = c.sessionId := by rw [seqStep_fst]
  have hseq : (seqStep msg c).1.seq = if msg.s = 0 then c.seq else msg.s := by
    rw [seqStep_fst]
  rw [messageAction]
  simp only [h2, hsid, hseq]


/-- C1 amended: at a heartbeat tick with no ACK within `intervalMillis +
5000` ms, the connector cancels its heartbeat timer exactly once and
initiates a reconnect-and-resume — transport close 4000 then connect,
preserving `sessionIdentifier` and `sequence` and setting the pending-resume
flag — or, when auto-reconnect is disabled, initiates a graceful disconnect
(closing flag set, transport close 1000) leaving the timer for close
processing. -/
theorem c1_amended_timeout_resume_reconnect (c : Conn) (now : Int)
    (hAck : c.lastACKAt ≤ now - ((c.heartbeatInterval : Int) + 5000))
    (hTimer : c.hbTimer = true) :
    (c.reconnectOpt = true →
      (heartbeatTick now c).1.sessionId = c.sessionId ∧
      (heartbeatTick now c).1.seq = c.seq ∧
      (heartbeatTick now c).1.reconnecting = true ∧
      (heartbeatTick now c).1.hbTimer = false ∧
      countClear (heartbeatTick now c).2 = 1 ∧
      Effect.wsClose 4000 ∈ (heartbeatTick now c).2 ∧
      Effect.wsConnect ∈ (heartbeatTick now c).2) ∧
    (c.reconnectOpt = false →
      (heartbeatTick now c).1.closing = true ∧
      (heartbeatTick now c).1.hbTimer = true ∧
      countClear (heartbeatTick now c).2 = 0 ∧
      Effect.wsClose 1000 ∈ (heartbeatTick now c).2) := by
  constructor <;> intro h <;>
    by_cases hws : c.wsStatus = 2 <;>
      simp [heartbeatTick, if_pos hAck, reconnectWs, clearHeartBeat, connect,
        disconnect, countClear, h, hTimer, hws]

/-- C1 witness: the amended heartbeat-timeout theorem applied at a concrete
timed-out state. -/
theorem c1_amended_witness :
    (tickState.lastACKAt ≤ 100000 - ((tickState.heartbeatInterval : Int) + 5000) ∧
     tickState.hbTimer = true) ∧
    ((heartbeatTick 100000 tickState).1.sessionId = tickState.sessionId ∧
     (heartbeatTick 100000 tickState).1.seq = tickState.seq ∧
     (heartbeatTick 100000 tickState).1.reconnecting = true ∧
     (heartbeatTick 100000 tickState).1.hbTimer = false ∧
     countClear (heartbeatTick 100000 tickState).2 = 1 ∧
     Effect.wsClose 4000 ∈ (heartbeatTick 100000 tickState).2 ∧
     Effect.wsConnect ∈ (heartbeatTick 100000 tickState).2) :=
  ⟨⟨by decide, by decide⟩,
   (c1_amended_timeout_resume_reconnect tickState 100000 (by decide) (by decide)).1
     (by decide)⟩

/-- C2 amended: on an INVALID_SESSION control message, the connector resumes
(without any reset) exactly when the payload flag `d` is truthy and
`sessionIdentifier` is non-empty; otherwise it zeroes `sequence`, overwrites
`sessionIdentifier` with the empty string and emits the identify-required
notification, leaving `trace` and the heartbeat timer untouched. -/
theorem c2_amended_invalid_session (c : Conn) (msg : GatewayMessage) (now : Int)
    (hop : msg.op = OP_INVALID_SESSION) (hs : msg.s = 0) :
    ((msg.d.dFlag && sessionTruthy c.sessionId) = true →
      (messageAction msg now c).1.status = Status.resuming ∧
      (messageAction msg now c).1.sessionId = c.sessionId ∧
      (messageAction msg now c).1.seq = c.seq ∧
      (messageAction msg now c).1.hbTimer = c.hbTimer ∧
      sentResume (messageAction msg now c).2 = true) ∧
    ((msg.d.dFlag && sessionTruthy c.sessionId) = false →
      (messageAction msg now c).1.seq = 0 ∧
      (messageAction msg now c).1.sessionId = some "" ∧
      (messageAction msg now c).1.trace = c.trace ∧
      (messageAction msg now c).1.hbTimer = c.hbTimer ∧
      countClear (messageAction msg now c).2 = 0 ∧
      Effect.queueIdentify c.shardId ∈ (messageAction msg now c).2 ∧
      sentResume (messageAction msg now c).2 = false) := by
  have h0 := seqStep_s0 msg c hs
  constructor <;> intro h <;>
    simp [messageAction, h0, opStep, hop, OP_DISPATCH, OP_HEARTBEAT, OP_RECONNECT,
      OP_INVALID_SESSION, OP_HELLO, OP_HEARTBEAT_ACK, resume, sentResume,
      countClear, h]

/-- C2 witness: the amended invalid-session theorem applied at a concrete
state with a resumable session. -/
theorem c2_amended_witness :
    (({ op := OP_INVALID_SESSION, d := { dFlag := true } : GatewayMessage }.op
        = OP_INVALID_SESSION) ∧
     ({ op := OP_INVALID_SESSION, d := { dFlag := true } : GatewayMessage }.s = 0)) ∧
    ((messageAction { op := OP_INVALID_SESSION, d := { dFlag := true } } 0
        invalidSessionState).1.status = Status.resuming ∧
     (messageAction { op := OP_INVALID_SESSION, d := { dFlag := true } } 0
        invalidSessionState).1.sessionId = invalidSessionState.sessionId ∧
     (messageAction { op := OP_INVALID_SESSION, d := { dFlag := true } } 0
        invalidSessionState).1.seq = invalidSessionState.seq ∧
     (messageAction { op := OP_INVALID_SESSION, d := { dFlag := true } } 0
        invalidSessionState).1.hbTimer = invalidSessionState.hbTimer ∧
     sentResume (messageAction { op := OP_INVALID_SESSION, d := { dFlag := true } } 0
        invalidSessionState).2 = true) :=
  ⟨⟨by decide, by decide⟩,
   (c2_amended_invalid_session invalidSessionState
      { op := OP_INVALID_SESSION, d := { dFlag := true } } 0 (by decide) (by decide)).1
     (by decide)⟩

/-- C3 amended: on the reconnect-request opcode (op 7) the connector
performs a reconnect-and-resume when `options.reconnect` is enabled —
transport close 4000, heartbeat cancelled, `sessionIdentifier` and
`sequence` preserved, pending-resume flag set, then reconnect — and a
graceful disconnect (closing flag set, close 1000, no reconnect) when it is
disabled. -/
theorem c3_amended_op7_resume_reconnect (c : Conn) (msg : GatewayMessage) (now : Int)
    (hop : msg.op = OP_RECONNECT) (hs : msg.s = 0) :
    (c.reconnectOpt = true →
      (messageAction msg now c).1.sessionId = c.sessionId ∧
      (messageAction msg now c).1.seq = c.seq ∧
      (messageAction msg now c).1.reconnecting = true ∧
      (messageAction msg now c).1.hbTimer = false ∧
      Effect.wsClose 4000 ∈ (messageAction msg now c).2 ∧
      Effect.wsConnect ∈ (messageAction msg now c).2) ∧
    (c.reconnectOpt = false →
      (messageAction msg now c).1.closing = true ∧
      Effect.wsClose 1000 ∈ (messageAction msg now c).2 ∧
      Effect.wsConnect ∉ (messageAction msg now c).2) := by
  have h0 := seqStep_s0 msg c hs
  constructor <;> intro h <;>
    by_cases hws : c.wsStatus = 2 <;>
      simp [messageAction, h0, opStep, hop, OP_DISPATCH, OP_HEARTBEAT, OP_RECONNECT,
        OP_INVALID_SESSION, OP_HELLO, OP_HEARTBEAT_ACK, reconnectWs, clearHeartBeat,
        connect, disconnect, h, hws]

/-- C3 witness: the amended reconnect-request theorem applied at a concrete
state with an active session. -/
theorem c3_amended_witness :
    (({ op := OP_RECONNECT : GatewayMessage }.op = OP_RECONNECT) ∧
     ({ op := OP_RECONNECT : GatewayMessage }.s = 0)) ∧
    ((messageAction { op := OP_RECONNECT } 0 reconnectOpState).1.sessionId
        = reconnectOpState.sessionId ∧
     (messageAction { op := OP_RECONNECT } 0 reconnectOpState).1.seq
        = reconnectOpState.seq ∧
     (messageAction { op := OP_RECONNECT } 0 reconnectOpState).1.reconnecting = true ∧
     (messageAction { op := OP_RECONNECT } 0 reconnectOpState).1.hbTimer = false ∧
     Effect.wsClose 4000 ∈ (messageAction { op := OP_RECONNECT } 0 reconnectOpState).2 ∧
     Effect.wsConnect ∈ (messageAction { op := OP_RECONNECT } 0 reconnectOpState).2) :=
  ⟨⟨by decide, by decide⟩,
   (c3_amended_op7_resume_reconnect reconnectOpState { op := OP_RECONNECT } 0
      (by decide) (by decide)).1 (by decide)⟩

/-- C4 amended: a resume is guarded by a non-empty `sessionIdentifier` only
in the INVALID_SESSION handler; the sequence-gap path sends an OP 6 RESUME
unconditionally, even while `sessionIdentifier` is empty. -/
theorem c4_amended_resume_guard (c : Conn) (msg : GatewayMessage) (now : Int) :
    (c.seq + 1 < msg.s →
      Effect.send (OutMessage.resumeMsg msg.s c.sessionId) ∈ (messageAction msg now c).2) ∧
    (msg.op = OP_INVALID_SESSION → msg.s = 0 →
      sentResume (messageAction msg now c).2 = (msg.d.dFlag && sessionTruthy c.sessionId)) := by
  constructor
  · intro h
    have := seqStep_gap_sends_resume msg c h
    simp only [messageAction, List.mem_append]
    exact Or.inl this
  · intro hop hs
    have h0 := seqStep_s0 msg c hs
    by_cases hf : msg.d.dFlag = true <;>
      by_cases ht : sessionTruthy c.sessionId = true <;>
        simp_all [messageAction, h0, opStep, hop, OP_DISPATCH, OP_HEARTBEAT,
          OP_RECONNECT, OP_INVALID_SESSION, OP_HELLO, OP_HEARTBEAT_ACK, resume,
          sentResume]

/-- C4 witness: the amended resume-guard theorem applied to a fresh
connector receiving a gapped envelope. -/
theorem c4_amended_witness :
    (freshState.seq + 1 < 2) ∧
    Effect.send (OutMessage.resumeMsg 2 freshState.sessionId)
      ∈ (messageAction { op := OP_DISPATCH, s := 2 } 0 freshState).2 :=
  ⟨by decide,
   (c4_amended_resume_guard freshState { op := OP_DISPATCH, s := 2 } 0).1 (by decide)⟩


/-- `handleWsClose` always lands in `disconnected` status. -/
theorem handleWsClose_status (code : Nat) (c : Conn) :
    (handleWsClose code c).1.status = Status.disconnected := by
  by_cases h01 : code = 4009
  · simp [handleWsClose, clearHeartBeat, reset, connect, h01]
  by_cases h02 : code = 4008
  · simp [handleWsClose, clearHeartBeat, reset, connect, h02]
  by_cases h03 : code = 4007
  · simp [handleWsClose, clearHeartBeat, reset, connect, h03]
  by_cases h04 : code = 4005
  · simp [handleWsClose, clearHeartBeat, reset, connect, h04]
  by_cases h05 : code = 4003
  · simp [handleWsClose, clearHeartBeat, reset, connect, h05]
  by_cases h06 : code = 4002
  · simp [handleWsClose, clearHeartBeat, reset, connect, h06]
  by_cases h07 : code = 4001
  · simp [handleWsClose, clearHeartBeat, reset, connect, h07]
  by_cases h08 : code = 4000
  · by_cases hr : c.reconnecting <;>
      simp [handleWsClose, clearHeartBeat, reset, connect, h08, hr]
  by_cases h09 : code = 1000
  · by_cases hcl : c.closing <;>
      simp [handleWsClose, clearHeartBeat, reset, connect, h09, hcl]
  simp [handleWsClose, clearHeartBeat, reset, connect,
    h01, h02, h03, h04, h05, h06, h07, h08, h09]

/-- The opcode switch preserves the ready-implies-session invariant, given
well-formed READY/RESUMED dispatches and a resumable INVALID_SESSION when
in `ready` status. -/
theorem opStep_inv (msg : GatewayMessage) (now : Int) (c1 : Conn) (hInv : Inv c1)
    (hReady : msg.op = OP_DISPATCH → msg.t = some "READY" → msg.d.session_id ≠ "")
    (hResumed : msg.op = OP_DISPATCH → msg.t = some "RESUMED" → sessionTruthy c1.sessionId = true)
    (hInval : msg.op = OP_INVALID_SESSION → c1.status = Status.ready →
        (msg.d.dFlag && sessionTruthy c1.sessionId) = true) :
    Inv (opStep msg now c1).1 := by
  by_cases h0 : msg.op = OP_DISPATCH
  · by_cases hR : msg.t = some "READY"
    · have hsid := hReady h0 hR
      simp [opStep, handleDispatch, h0, hR, Inv, sessionTruthy, hsid]
    · by_cases hRes : msg.t = some "RESUMED"
      · have hsid := hResumed h0 hRes
        simp [opStep, handleDispatch, h0, hR, hRes, Inv, hsid]
      · simpa [opStep, handleDispatch, h0, hR, hRes, Inv] using hInv
  · by_cases h1 : msg.op = OP_HEARTBEAT
    · simpa [opStep, heartbeat, h0, h1, Inv] using hInv
    · by_cases h2 : msg.op = OP_RECONNECT
      · by_cases hro : c1.reconnectOpt <;>
          simpa [opStep, reconnectWs, clearHeartBeat, connect, disconnect,
            h0, h1, h2, hro, Inv] using hInv
      · by_cases h3 : msg.op = OP_INVALID_SESSION
        · by_cases hF : (msg.d.dFlag && sessionTruthy c1.sessionId) = true
          · simp [opStep, resume, h0, h1, h2, h3, hF, Inv,
              OP_DISPATCH, OP_HEARTBEAT, OP_RECONNECT, OP_INVALID_SESSION,
              OP_HELLO, OP_HEARTBEAT_ACK]
          · have hred : (opStep msg now c1).1 = { c1 with seq := 0, sessionId := some "" } := by
              simp [opStep, h0, h1, h2, h3, hF,
                OP_DISPATCH, OP_HEARTBEAT, OP_RECONNECT, OP_INVALID_SESSION,
                OP_HELLO, OP_HEARTBEAT_ACK]
            intro hst
            rw [hred] at hst
            exact absurd (hInval h3 (by simpa using hst)) hF
        · by_cases h4 : msg.op = OP_HELLO
          · simpa [opStep, heartbeat, h0, h1, h2, h3, h4, Inv] using hInv
          · by_cases h5 : msg.op = OP_HEARTBEAT_ACK
            · simpa [opStep, h0, h1, h2, h3, h4, h5, Inv] using hInv
            · simpa [opStep, h0, h1, h2, h3, h4, h5, Inv] using hInv

/-- C6 amended: the invariant `status = Ready → sessionIdentifier non-empty`
is preserved by every operation, and by `messageAction` under the
`handlerOk` side conditions — a READY dispatch carries a non-empty
`session_id`, a RESUMED dispatch arrives only while a session identifier is
stored, and an INVALID_SESSION received in `ready` status is resumable.
Without those side conditions the invariant fails (see the
counterexample). -/
theorem c6_amended_ready_invariant (c : Conn) (msg : GatewayMessage) (now : Int)
    (force : Bool) (code : Nat) (hInv : Inv c) (hOk : handlerOk msg c) :
    Inv (messageAction msg now c).1 ∧ Inv (connect c).1 ∧ Inv (disconnect c).1 ∧
    Inv (identify force c).1 ∧ Inv (resume c).1 ∧ Inv (heartbeat now c).1 ∧
    Inv (heartbeatTick now c).1 ∧ Inv (handleWsClose code c).1 ∧ Inv (wsOpen c).1 := by
  obtain ⟨hOk1, hOk2, hOk3⟩ := hOk
  refine ⟨?_, ?_, ?_, ?_, ?_, ?_, ?_, ?_, ?_⟩
  · -- messageAction = opStep after seqStep
    have hfst := seqStep_fst msg c
    have hsid : (seqStep msg c).1.sessionId = c.sessionId := by rw [hfst]
    have hstat : (seqStep msg c).1.status = Status.ready → c.status = Status.ready := by
      rw [hfst]
      split_ifs <;> simp_all
    have hInv1 : Inv (seqStep msg c).1 := by
      intro hst
      rw [hsid]
      exact hInv (hstat hst)
    have := opStep_inv msg now (seqStep msg c).1 hInv1
      (fun ho ht => hOk1 ho ht)
      (fun ho ht => by rw [hsid]; exact hOk2 ho ht)
      (fun ho hst => by rw [hsid]; exact hOk3 ho (hstat hst))
    simpa [messageAction] using this
  · simpa [connect, Inv] using hInv
  · simpa [disconnect, Inv] using hInv
  · by_cases hf : sessionTruthy c.sessionId && !force <;>
      simp [identify, resume, hf, Inv]
  · simp [resume, Inv]
  · simpa [heartbeat, Inv] using hInv
  · by_cases hAck : c.lastACKAt ≤ now - ((c.heartbeatInterval : Int) + 5000)
    · by_cases hro : c.reconnectOpt <;>
        simpa [heartbeatTick, hAck, reconnectWs, clearHeartBeat, connect,
          disconnect, hro, Inv] using hInv
    · simpa [heartbeatTick, hAck, heartbeat, Inv] using hInv
  · intro hst
    rw [handleWsClose_status] at hst
    exact absurd hst (by decide)
  · simp [wsOpen, Inv]


/-- C6 witness: the invariant-preservation theorem applied to the fresh
connector receiving a well-formed READY dispatch. -/
theorem c6_amended_witness :
    (Inv freshState ∧
     handlerOk { op := OP_DISPATCH, t := some "READY", d := { session_id := "sess" } }
       freshState) ∧
    (Inv (messageAction { op := OP_DISPATCH, t := some "READY", d := { session_id := "sess" } }
        0 freshState).1 ∧
     Inv (connect freshState).1 ∧ Inv (disconnect freshState).1 ∧
     Inv (identify false freshState).1 ∧ Inv (resume freshState).1 ∧
     Inv (heartbeat 0 freshState).1 ∧ Inv (heartbeatTick 0 freshState).1 ∧
     Inv (handleWsClose 4014 freshState).1 ∧ Inv (wsOpen freshState).1) :=
  ⟨⟨by decide, by decide⟩,
   c6_amended_ready_invariant freshState
     { op := OP_DISPATCH, t := some "READY", d := { session_id := "sess" } } 0 false 4014
     (by decide) (by decide)⟩

end CloudStorm
